import Mathlib

/-!
Verification of the QUANTAID_Lite live-event simulator against its
natural-language specification.

The definitions below shallowly embed the client-side simulator code of
`frontend/src/components` (the `RealTimeDashboard` component and its
companions): the bounded alert / live-metrics queues, the pseudo-random
alert generator, the per-tick system-metric jitter, the dismiss /
mark-as-read queue operations, the network-failure fallback handlers of
the predictor components, and the constant crisis-hotspot catalog of
`WorldMap`.  JavaScript numbers are modelled as rationals (`ℚ`); each
`Math.random()` invocation is modelled as an explicit rational argument,
assumed to lie in `[0,1)` where a claim needs it; `Date.now()` is an
explicit timestamp argument.
-/

namespace QuantAid

/-! ## Bounded queues (`RealTimeDashboard`)

`setAlerts(prev => [newAlert, ...prev.slice(0, 9)])` keeps the ten most
recent alerts, newest first.  `setLiveData(prev => [...prev.slice(-9),
newData])` keeps the ten most recent samples, oldest first.  Both are
generic list operations, embedded polymorphically. -/

/-- Source `[newAlert, ...prev.slice(0, 9)]`: prepend the new alert and keep the
first nine previous entries (the alerts queue stores newest first). -/
def pushAlert {α : Type} (a : α) (q : List α) : List α :=
  a :: q.take 9

/-- Source `[...prev.slice(-9), newData]`: keep the last nine previous entries and
append the new sample (the live-metrics queue stores oldest first).
JavaScript `slice(-9)` returns the trailing nine elements in order, which is
`(q.reverse.take 9).reverse`. -/
def pushMetric {α : Type} (d : α) (q : List α) : List α :=
  (q.reverse.take 9).reverse ++ [d]

/-- Folding a whole sequence of pushes into the alerts queue, starting from
the empty queue, in chronological order. -/
def runAlerts {α : Type} (events : List α) : List α :=
  events.foldl (fun q e => pushAlert e q) []

/-- Folding a whole sequence of pushes into the live-metrics queue, starting
from the empty queue, in chronological order. -/
def runMetrics {α : Type} (events : List α) : List α :=
  events.foldl (fun q e => pushMetric e q) []

/-- The last `n` pushed events in push order (oldest first, newest last) —
the spec's description of the queue contents, used to compare the source
queues against the specified behaviour. -/
def lastN {α : Type} (n : ℕ) (events : List α) : List α :=
  (events.reverse.take n).reverse

theorem runAlerts_eq {α : Type} (events : List α) :
    runAlerts events = events.reverse.take 10 := by
  induction events using List.reverseRecOn with
  | nil => rfl
  | append_singleton es e ih =>
      simp only [runAlerts, List.foldl_append, List.foldl_cons, List.foldl_nil] at *
      rw [ih]
      simp [pushAlert, List.take_take, List.reverse_append]

theorem runMetrics_eq {α : Type} (events : List α) :
    runMetrics events = lastN 10 events := by
  induction events using List.reverseRecOn with
  | nil => rfl
  | append_singleton es e ih =>
      simp only [runMetrics, List.foldl_append, List.foldl_cons, List.foldl_nil] at *
      rw [ih]
      simp [pushMetric, lastN, List.take_take, List.reverse_append]

/-! ## The alert generator (`generateAlert` in `RealTimeDashboard`)

```js
const randomType = alertTypes[Math.floor(Math.random() * alertTypes.length)];
const randomMessage = randomType.messages[Math.floor(Math.random() * randomType.messages.length)];
return {
  id: Date.now() + Math.random(),
  type: randomType.type, color: randomType.color,
  message: randomMessage, timestamp: new Date(),
  severity: Math.random() > 0.7 ? "high" : Math.random() > 0.4 ? "medium" : "low",
  read: false };
```
Each `Math.random()` call is a separate argument, in source evaluation
order: `rType`, `rMsg`, `rId`, `rSev1`, `rSev2` (the last is only consumed
when `rSev1 ≤ 0.7`). -/

inductive Severity where
  | low | medium | high
  deriving DecidableEq, Repr

/-- One entry of the alerts queue (the return shape of `generateAlert`; the
`icon` component reference is dropped, `color` is kept as a string). -/
structure Alert where
  id : ℚ
  type : String
  color : String
  message : String
  timestamp : ℚ
  severity : Severity
  read : Bool
  deriving DecidableEq, Repr

/-- The `alertTypes` catalog: type, color, and the four messages. -/
def alertTypes : List (String × String × List String) :=
  [("crisis", "red",
    ["Drought conditions worsening in Horn of Africa",
     "Flood risk elevated in Bangladesh Delta",
     "Food security declining in Sahel region",
     "Hurricane approaching Central America"]),
   ("prediction", "blue",
    ["AI model detected yield anomaly in wheat belt",
     "Ensemble prediction confidence increased to 96%",
     "New climate pattern identified affecting corn production",
     "Risk assessment updated for 3 regions"]),
   ("quantum", "purple",
    ["Quantum optimization completed for resource allocation",
     "QAOA algorithm achieved 18% efficiency gain",
     "Route optimization reduced delivery time by 25%",
     "Quantum circuit depth optimized for faster execution"]),
   ("system", "green",
    ["Real-time data sync completed successfully",
     "Model training completed with improved accuracy",
     "System performance optimized",
     "New data sources integrated"])]

/-- Embeds `Math.floor(r * n)` for a draw `r`, as a natural-number index. -/
def floorIdx (r : ℚ) (n : ℕ) : ℕ :=
  (⌊r * n⌋).toNat

/-- Severity expression `Math.random() > 0.7 ? "high" : Math.random() > 0.4 ? "medium" : "low"`:
the severity is computed from TWO independent draws, the second draw being
consumed only when the first is ≤ 0.7. -/
def severityOf (rSev1 rSev2 : ℚ) : Severity :=
  if rSev1 > 7/10 then .high else if rSev2 > 4/10 then .medium else .low

/-- The spec's severity rule, for comparison: a SINGLE uniform draw `r`
with `high` if `r > 0.7`, `medium` if `0.4 < r ≤ 0.7`, else `low`. -/
def specSeverity (r : ℚ) : Severity :=
  if r > 7/10 then .high else if r > 4/10 then .medium else .low

/-- Embeds `generateAlert`, with `Date.now()` as `now` and the five potential
`Math.random()` results as explicit arguments in evaluation order. -/
def generateAlert (now rType rMsg rId rSev1 rSev2 : ℚ) : Alert :=
  let ty := alertTypes.getD (floorIdx rType alertTypes.length) ("", "", [])
  let msg := ty.2.2.getD (floorIdx rMsg ty.2.2.length) ""
  { id := now + rId
    type := ty.1
    color := ty.2.1
    message := msg
    timestamp := now
    severity := severityOf rSev1 rSev2
    read := false }

/-! ## Queue operations: dismiss and acknowledge -/

/-- Source `dismissAlert`: `prev.filter(alert => alert.id !== alertId)`. -/
def dismissAlert (alertId : ℚ) (q : List Alert) : List Alert :=
  q.filter (fun alert => alert.id ≠ alertId)

/-- Source `markAsRead`: `prev.map(alert => alert.id === alertId ?
{ ...alert, read: true } : alert)`. -/
def markAsRead (alertId : ℚ) (q : List Alert) : List Alert :=
  q.map (fun alert => if alert.id = alertId then { alert with read := true } else alert)

/-- The three mutations the dashboard ever applies to the alerts queue. -/
inductive QueueOp where
  | push : Alert → QueueOp
  | dismiss : ℚ → QueueOp
  | ack : ℚ → QueueOp
  deriving DecidableEq

/-- Apply one queue operation. -/
def applyOp (q : List Alert) : QueueOp → List Alert
  | .push a => pushAlert a q
  | .dismiss i => dismissAlert i q
  | .ack i => markAsRead i q

/-- Apply a sequence of queue operations, oldest first. -/
def applyOps (q : List Alert) : List QueueOp → List Alert
  | [] => q
  | op :: ops => applyOps (applyOp q op) ops

/-! ## System metrics and the per-tick jitter (`setSystemMetrics`)

```js
setSystemMetrics(prev => ({ ...prev,
  ai_accuracy: Math.max(90, Math.min(99, prev.ai_accuracy + (Math.random() - 0.5) * 2)),
  quantum_efficiency: Math.max(80, Math.min(95, prev.quantum_efficiency + (Math.random() - 0.5) * 3)),
  active_predictions: Math.max(100, Math.min(200, prev.active_predictions + Math.floor((Math.random() - 0.5) * 10))),
  crisis_alerts: Math.max(0, Math.min(20, prev.crisis_alerts + Math.floor((Math.random() - 0.5) * 2))),
  response_time: Math.max(1, Math.min(5, prev.response_time + (Math.random() - 0.5) * 0.5)) }));
```
-/

structure SystemMetrics where
  ai_accuracy : ℚ
  quantum_efficiency : ℚ
  active_predictions : ℚ
  crisis_alerts : ℚ
  response_time : ℚ
  uptime : ℚ
  deriving DecidableEq, Repr

/-- The `useState` initial value of `systemMetrics`. -/
def initMetrics : SystemMetrics :=
  { ai_accuracy := 942/10
    quantum_efficiency := 875/10
    active_predictions := 156
    crisis_alerts := 8
    response_time := 23/10
    uptime := 998/10 }

/-- Embeds `Math.max(lo, Math.min(hi, x))`. -/
def clamp (lo hi x : ℚ) : ℚ := max lo (min hi x)

/-- One `metricsInterval` update of the system metrics; `r1 … r5` are the
five `Math.random()` results in source order. `Math.floor` on rationals is
`⌊·⌋` cast back to `ℚ`. -/
def tickMetrics (r1 r2 r3 r4 r5 : ℚ) (m : SystemMetrics) : SystemMetrics :=
  { m with
    ai_accuracy := clamp 90 99 (m.ai_accuracy + (r1 - 1/2) * 2)
    quantum_efficiency := clamp 80 95 (m.quantum_efficiency + (r2 - 1/2) * 3)
    active_predictions := clamp 100 200 (m.active_predictions + (⌊(r3 - 1/2) * 10⌋ : ℤ))
    crisis_alerts := clamp 0 20 (m.crisis_alerts + (⌊(r4 - 1/2) * 2⌋ : ℤ))
    response_time := clamp 1 5 (m.response_time + (r5 - 1/2) * (1/2)) }

/-- The five draws of one metrics tick. -/
structure TickDraws where
  r1 : ℚ
  r2 : ℚ
  r3 : ℚ
  r4 : ℚ
  r5 : ℚ

/-- Run a finite sequence of metric ticks, oldest first. -/
def runTicks (m : SystemMetrics) : List TickDraws → SystemMetrics
  | [] => m
  | d :: ds => runTicks (tickMetrics d.r1 d.r2 d.r3 d.r4 d.r5 m) ds

/-- The documented clamp ranges of the five jittered metrics. -/
def metricsInRange (m : SystemMetrics) : Prop :=
  90 ≤ m.ai_accuracy ∧ m.ai_accuracy ≤ 99 ∧
  80 ≤ m.quantum_efficiency ∧ m.quantum_efficiency ≤ 95 ∧
  100 ≤ m.active_predictions ∧ m.active_predictions ≤ 200 ∧
  0 ≤ m.crisis_alerts ∧ m.crisis_alerts ≤ 20 ∧
  1 ≤ m.response_time ∧ m.response_time ≤ 5

instance (m : SystemMetrics) : Decidable (metricsInRange m) := by
  unfold metricsInRange; infer_instance

/-! ## The tick scheduler (`useEffect` of `RealTimeDashboard`)

The effect installs `alertInterval` (push a fresh alert with probability
0.3: `if (Math.random() > 0.7)`) and `metricsInterval` (push a live-data
sample and jitter the system metrics), and returns a cleanup that calls
`clearInterval` on both.  A timer period elapsing after `clearInterval`
fires no callback; this JavaScript timer semantics is embedded as a
`running` flag that the cleanup clears and every callback checks. -/

/-- One `generateMetricsData()` sample; `m1 … m4` are the four
`Math.random()` results. -/
structure MetricsSample where
  timestamp : ℚ
  ai_predictions : ℚ
  quantum_operations : ℚ
  crisis_score : ℚ
  response_efficiency : ℚ
  deriving DecidableEq, Repr

/-- Source `generateMetricsData`: four `Math.floor(Math.random() * k) + c` fields. -/
def generateMetricsData (now m1 m2 m3 m4 : ℚ) : MetricsSample :=
  { timestamp := now
    ai_predictions := (⌊m1 * 20⌋ : ℤ) + 80
    quantum_operations := (⌊m2 * 15⌋ : ℤ) + 25
    crisis_score := (⌊m3 * 30⌋ : ℤ) + 40
    response_efficiency := (⌊m4 * 20⌋ : ℤ) + 75 }

/-- The dashboard state owned by the effect: the two bounded queues, the
system metrics, and whether the intervals are still installed. -/
structure DashState where
  running : Bool
  alerts : List Alert
  liveData : List MetricsSample
  metrics : SystemMetrics
  deriving DecidableEq

/-- One elapsed timer period: either the alert interval fires (with its
gate draw and the generator's draws) or the metrics interval fires (with
the sample draws and the five jitter draws). -/
inductive TimerEvent where
  | alertFire (gate now rType rMsg rId rSev1 rSev2 : ℚ)
  | metricsFire (now m1 m2 m3 m4 : ℚ) (d : TickDraws)

/-- Fire one timer callback.  After `clearInterval` (modelled by
`running = false`) the callback does not run and the state is untouched. -/
def fireEvent (s : DashState) : TimerEvent → DashState
  | .alertFire gate now rT rM rI s1 s2 =>
      if s.running then
        if gate > 7/10 then
          { s with alerts := pushAlert (generateAlert now rT rM rI s1 s2) s.alerts }
        else s
      else s
  | .metricsFire now m1 m2 m3 m4 d =>
      if s.running then
        { s with
          liveData := pushMetric (generateMetricsData now m1 m2 m3 m4) s.liveData
          metrics := tickMetrics d.r1 d.r2 d.r3 d.r4 d.r5 s.metrics }
      else s

/-- A finite sequence of elapsed timer periods. -/
def elapse (s : DashState) : List TimerEvent → DashState
  | [] => s
  | ev :: evs => elapse (fireEvent s ev) evs

/-- The `useEffect` cleanup: `clearInterval` on the installed intervals. -/
def stopSched (s : DashState) : DashState := { s with running := false }

/-! ## Network-failure handling in the predictor components -/

/-- The response shape of `apiService.predictYield` (`CrisisPredictor`). -/
structure Prediction where
  predicted_yield : ℚ
  confidence_score : ℚ
  risk_level : String
  recommendations : List String
  deriving DecidableEq, Repr

/-- Embeds the fixed fallback payload built in the `catch` block of
`CrisisPredictor.handlePredict`. -/
def fallbackPrediction : Prediction :=
  { predicted_yield := 2854/10
    confidence_score := 87/100
    risk_level := "medium"
    recommendations :=
      ["🌾 Monitor crop conditions closely",
       "💧 Implement water conservation measures",
       "📊 Increase regional monitoring frequency"] }

/-- Source `CrisisPredictor.handlePredict`: the transport result is `some` on
success, `none` on failure; `prev` is the `prediction` state before the
call.  The `catch` block substitutes the fixed fallback payload. -/
def handlePredict (result : Option Prediction) (prev : Option Prediction) :
    Option Prediction :=
  match result, prev with
  | some r, _ => some r
  | none, _ => some fallbackPrediction

/-- Source `AdvancedAIPredictor.runPrediction`: success stores the parsed
response; the `catch` block only calls `console.error` and leaves the
`prediction` state unchanged (generic in the response payload type). -/
def runPrediction {β : Type} (result : Option β) (prev : Option β) : Option β :=
  match result, prev with
  | some r, _ => some r
  | none, prev => prev

/-! ## The crisis-hotspot catalog (`WorldMap.generateCrisisHotspots`) -/

/-- One entry of the hard-coded `hotspots` array. -/
structure Hotspot where
  id : ℕ
  name : String
  country : String
  lat : ℚ
  lng : ℚ
  severity : String
  hazard : String
  affected_population : ℕ
  risk_score : ℚ
  temperature_anomaly : ℚ
  rainfall_deficit : ℚ
  food_security_index : ℚ
  predicted_yield : ℚ
  resources_needed : List (String × String)
  timeline : String
  description : String
  deriving DecidableEq, Repr

/-- Source `generateCrisisHotspots` installs this literal array — no
`Math.random()`, no dependence on prior state. -/
def generateCrisisHotspots : List Hotspot :=
  [{ id := 1, name := "Horn of Africa", country := "Somalia/Ethiopia",
     lat := 5, lng := 46, severity := "critical", hazard := "drought",
     affected_population := 15000000, risk_score := 92/10,
     temperature_anomaly := 35/10, rainfall_deficit := -65,
     food_security_index := 21/10, predicted_yield := 3/10,
     resources_needed := [("food", "50,000 tonnes"), ("water", "2M liters/day"),
                          ("medical", "500 kits")],
     timeline := "Immediate action required",
     description := "Severe drought conditions affecting crop yields and livestock" },
   { id := 2, name := "Bangladesh Delta", country := "Bangladesh",
     lat := 237/10, lng := 904/10, severity := "high", hazard := "flooding",
     affected_population := 8500000, risk_score := 81/10,
     temperature_anomaly := 12/10, rainfall_deficit := 180,
     food_security_index := 32/10, predicted_yield := 6/10,
     resources_needed := [("shelter", "10,000 tents"), ("water_purification", "200 units"),
                          ("medical", "300 kits")],
     timeline := "72 hours",
     description := "Monsoon flooding threatening rice production and displacement" },
   { id := 3, name := "Sahel Region", country := "Mali/Niger",
     lat := 16, lng := 0, severity := "high", hazard := "desertification",
     affected_population := 12000000, risk_score := 78/10,
     temperature_anomaly := 28/10, rainfall_deficit := -45,
     food_security_index := 25/10, predicted_yield := 4/10,
     resources_needed := [("food", "30,000 tonnes"), ("seeds", "500 tonnes"),
                          ("water", "1.5M liters/day")],
     timeline := "1 week",
     description := "Advancing desertification reducing arable land and crop yields" },
   { id := 4, name := "Central America", country := "Guatemala/Honduras",
     lat := 15, lng := -90, severity := "medium", hazard := "hurricane",
     affected_population := 3200000, risk_score := 65/10,
     temperature_anomaly := 8/10, rainfall_deficit := 220,
     food_security_index := 38/10, predicted_yield := 7/10,
     resources_needed := [("emergency", "1,000 kits"), ("reconstruction", "500 units"),
                          ("medical", "150 kits")],
     timeline := "2 weeks",
     description := "Hurricane season threatening coffee and corn production" },
   { id := 5, name := "Australian Outback", country := "Australia",
     lat := -25, lng := 135, severity := "medium", hazard := "wildfire",
     affected_population := 500000, risk_score := 62/10,
     temperature_anomaly := 41/10, rainfall_deficit := -80,
     food_security_index := 42/10, predicted_yield := 5/10,
     resources_needed := [("firefighting", "200 units"), ("evacuation", "50 vehicles"),
                          ("medical", "100 kits")],
     timeline := "Immediate",
     description := "Extreme heat and drought conditions increasing wildfire risk" }]

/-- Source `WorldMap.refreshData`: waits 1.5 s, then calls
`generateCrisisHotspots()`, replacing whatever hotspot state was there. -/
def refreshData (prev : List Hotspot) : List Hotspot :=
  generateCrisisHotspots

/-! ## Concrete sample data used to instantiate theorems -/

/-- A sample generated alert (timestamp 1000, all draws 0): id `1000`. -/
def alertA : Alert := generateAlert 1000 0 0 0 0 0

/-- A sample generated alert (timestamp 2000, id draw `1/2`): id `4001/2`. -/
def alertB : Alert := generateAlert 2000 0 0 (1/2) 0 0

/-- A generated alert with timestamp 1000 and id draw `1/2`: id `2001/2`. -/
def alertC1 : Alert := generateAlert 1000 0 0 (1/2) 0 0

/-- A generated alert with the same timestamp 1000 and the same id draw
`1/2` as `alertC1` but a different message draw: a different event with
the same id `2001/2`. -/
def alertC2 : Alert := generateAlert 1000 0 (1/4) (1/2) 0 0

/-! # Theorems -/

/-! ## C1 — bounded-queue contents and order -/

/-- C1: the claim states that after `k > 10` pushes BOTH bounded queues
hold the last ten pushed events oldest-first-newest-last.  This is false
for the alerts queue: `[newAlert, ...prev.slice(0, 9)]` stores the newest
alert FIRST.  Pushing the eleven distinct events `0, …, 10` (numbered
labels standing for eleven distinct events; the queue update is generic in
the element) leaves the alerts queue as `[10, 9, …, 1]`, the reverse of
the claimed push order `[1, …, 10]`. -/
theorem C1_counterexample :
    runAlerts (List.range 11) = [10, 9, 8, 7, 6, 5, 4, 3, 2, 1] ∧
    lastN 10 (List.range 11) = [1, 2, 3, 4, 5, 6, 7, 8, 9, 10] ∧
    runAlerts (List.range 11) ≠ lastN 10 (List.range 11) := by
  decide

/-- C1 (amended): for every sequence of `k > 10` pushes, each queue holds
exactly the last ten pushed events and no others, eviction always removing
the oldest; the live-metrics queue stores them in push order (oldest first,
newest last), while the alerts queue stores them in reverse push order
(newest first). -/
theorem C1_bounded_queue {α : Type} (events : List α) (h : 10 < events.length) :
    runMetrics events = lastN 10 events ∧
    runAlerts events = (lastN 10 events).reverse ∧
    (runMetrics events).length = 10 ∧
    (runAlerts events).length = 10 := by
  refine ⟨runMetrics_eq events, ?_, ?_, ?_⟩
  · rw [runAlerts_eq, lastN, List.reverse_reverse]
  · rw [runMetrics_eq events, lastN]
    simp only [List.length_reverse, List.length_take]
    omega
  · rw [runAlerts_eq]
    simp only [List.length_take, List.length_reverse]
    omega

/-- C1 witness: the amended statement instantiated at the eleven pushed
events `0, …, 10`. -/
theorem C1_bounded_queue_witness :
    10 < (List.range 11).length ∧
    (runMetrics (List.range 11) = lastN 10 (List.range 11) ∧
     runAlerts (List.range 11) = (lastN 10 (List.range 11)).reverse ∧
     (runMetrics (List.range 11)).length = 10 ∧
     (runAlerts (List.range 11)).length = 10) :=
  ⟨by decide, C1_bounded_queue (List.range 11) (by decide)⟩

/-! ## C2 — severity selection -/

/-- C2: the claim states that severity is determined by a SINGLE uniform
draw `r` (`high` if `r > 0.7`, `medium` if `0.4 < r ≤ 0.7`, else `low`)
and that this is exactly the source's algorithm.  False: the source
evaluates `Math.random() > 0.7 ? "high" : Math.random() > 0.4 ? "medium" :
"low"`, consuming a second draw.  With first draw `0.3` and second draw
`0.5` the source yields `medium` while the single-draw rule at `r = 0.3`
yields `low`; and two invocations sharing the first draw `0.3` can yield
different severities, so severity is not a function of one draw. -/
theorem C2_counterexample :
    (generateAlert 1000 0 0 0 (3/10) (1/2)).severity = Severity.medium ∧
    specSeverity (3/10) = Severity.low ∧
    (generateAlert 1000 0 0 0 (3/10) (1/2)).severity ≠
      (generateAlert 1000 0 0 0 (3/10) (3/10)).severity := by
  refine ⟨?_, ?_, ?_⟩ <;> norm_num [generateAlert, severityOf, specSeverity] <;> decide

/-- C2 (amended): the severity of every generated event is determined by
TWO uniform draws `r₁, r₂` (the second consumed only when `r₁ ≤ 0.7`):
`high` if `r₁ > 0.7`; otherwise `medium` if `r₂ > 0.4`; otherwise `low`. -/
theorem C2_severity_two_draws (now rType rMsg rId r1 r2 : ℚ) :
    (r1 > 7/10 → (generateAlert now rType rMsg rId r1 r2).severity = Severity.high) ∧
    (r1 ≤ 7/10 → r2 > 4/10 →
      (generateAlert now rType rMsg rId r1 r2).severity = Severity.medium) ∧
    (r1 ≤ 7/10 → r2 ≤ 4/10 →
      (generateAlert now rType rMsg rId r1 r2).severity = Severity.low) := by
  refine ⟨fun h => ?_, fun h h' => ?_, fun h h' => ?_⟩
  · show severityOf r1 r2 = Severity.high
    rw [severityOf, if_pos h]
  · show severityOf r1 r2 = Severity.medium
    rw [severityOf, if_neg (not_lt.mpr h), if_pos h']
  · show severityOf r1 r2 = Severity.low
    rw [severityOf, if_neg (not_lt.mpr h), if_neg (not_lt.mpr h')]

/-- C2 witness: the amended statement instantiated at first draw `0.8`
(→ `high`), and at first draw `0.3` with second draw `0.5` (→ `medium`). -/
theorem C2_severity_two_draws_witness :
    (generateAlert 1000 0 0 0 (4/5) 0).severity = Severity.high ∧
    (generateAlert 1000 0 0 0 (3/10) (1/2)).severity = Severity.medium :=
  ⟨(C2_severity_two_draws 1000 0 0 0 (4/5) 0).1 (by norm_num),
   (C2_severity_two_draws 1000 0 0 0 (3/10) (1/2)).2.1 (by norm_num) (by norm_num)⟩

/-! ## C3 — metric clamp invariant -/

/-- Every clamp with `lo ≤ hi` lands in `[lo, hi]`. -/
theorem clamp_mem (lo hi x : ℚ) (h : lo ≤ hi) :
    lo ≤ clamp lo hi x ∧ clamp lo hi x ≤ hi :=
  ⟨le_max_left _ _, max_le h (min_le_left _ _)⟩

/-- One metrics tick always lands in the documented ranges, whatever the
previous values and draws were. -/
theorem tickMetrics_inRange (r1 r2 r3 r4 r5 : ℚ) (m : SystemMetrics) :
    metricsInRange (tickMetrics r1 r2 r3 r4 r5 m) := by
  refine ⟨?_, ?_, ?_, ?_, ?_, ?_, ?_, ?_, ?_, ?_⟩ <;>
    first
      | exact (clamp_mem _ _ _ (by norm_num)).1
      | exact (clamp_mem _ _ _ (by norm_num)).2

/-- Ranges are preserved by any finite tick sequence. -/
theorem runTicks_inRange (ds : List TickDraws) (m : SystemMetrics)
    (h : metricsInRange m) : metricsInRange (runTicks m ds) := by
  induction ds generalizing m with
  | nil => exact h
  | cons d ds ih => exact ih _ (tickMetrics_inRange d.r1 d.r2 d.r3 d.r4 d.r5 m)

/-- C3: after any finite number of scheduler ticks from the initial state,
every jittered metric stays within its documented clamp range:
`ai_accuracy ∈ [90,99]`, `quantum_efficiency ∈ [80,95]`,
`active_predictions ∈ [100,200]`, `crisis_alerts ∈ [0,20]`,
`response_time ∈ [1,5]`. -/
theorem C3_metrics_clamped (ds : List TickDraws) :
    metricsInRange (runTicks initMetrics ds) :=
  runTicks_inRange ds initMetrics (by norm_num [metricsInRange, initMetrics])

/-! ## C4 — per-tick metric update shape -/

/-- C4: the claim states every new value is `clamp(old + u, min, max)` for
a uniform `u` in the OPEN interval `(-δ/2, +δ/2)`.  False at the boundary:
`Math.random()` ranges over `[0,1)`, so the draw `r = 0` yields the
perturbation `(0 - 0.5) · 2 = -1 = -δ/2` exactly.  With `r₁ = 0` the new
accuracy from `94.2` is `93.2`, a value no perturbation in the open
interval `(-1, 1)` can produce. -/
theorem C4_counterexample :
    (tickMetrics 0 0 0 0 0 initMetrics).ai_accuracy = 466/5 ∧
    ¬ ∃ u : ℚ, -1 < u ∧ u < 1 ∧ clamp 90 99 (471/5 + u) = 466/5 := by
  constructor
  · show clamp 90 99 (942/10 + (0 - 1/2) * 2) = 466/5
    rw [show (942:ℚ)/10 + (0 - 1/2) * 2 = 466/5 by norm_num, clamp,
        min_eq_right (by norm_num), max_eq_right (by norm_num)]
  · rintro ⟨u, hu1, hu2, hu3⟩
    rw [clamp, min_eq_right (by linarith), max_eq_right (by linarith)] at hu3
    linarith

/-- C4 (amended): each tick sets `new = clamp(old + u, min, max)` per
metric, where `u = (r - 0.5) · δ` for a draw `r ∈ [0,1)`, so `u` ranges
over the half-open interval `[-δ/2, +δ/2)` (the left endpoint included),
and for the integer-valued metrics (`active_predictions`, `crisis_alerts`)
`u` is additionally floored; the scenario holds: accuracy `94.2` with range
`[90,99]` and `δ = 2` lands in `[93.2, 95.2) ⊆ [90,99]` after one tick. -/
theorem C4_tick_update (r1 r2 r3 r4 r5 : ℚ) (h0 : 0 ≤ r1) (h1 : r1 < 1)
    (m : SystemMetrics) :
    (tickMetrics r1 r2 r3 r4 r5 m).ai_accuracy
      = clamp 90 99 (m.ai_accuracy + (r1 - 1/2) * 2) ∧
    -1 ≤ (r1 - 1/2) * 2 ∧ (r1 - 1/2) * 2 < 1 ∧
    (tickMetrics r1 r2 r3 r4 r5 m).active_predictions
      = clamp 100 200 (m.active_predictions + (⌊(r3 - 1/2) * 10⌋ : ℤ)) ∧
    (m.ai_accuracy = 471/5 →
      466/5 ≤ (tickMetrics r1 r2 r3 r4 r5 m).ai_accuracy ∧
      (tickMetrics r1 r2 r3 r4 r5 m).ai_accuracy < 476/5) := by
  have hu1 : -1 ≤ (r1 - 1/2) * 2 := by linarith
  have hu2 : (r1 - 1/2) * 2 < 1 := by linarith
  refine ⟨rfl, hu1, hu2, rfl, fun hm => ?_⟩
  show 466/5 ≤ clamp 90 99 (m.ai_accuracy + (r1 - 1/2) * 2) ∧
       clamp 90 99 (m.ai_accuracy + (r1 - 1/2) * 2) < 476/5
  rw [hm, clamp, min_eq_right (by linarith), max_eq_right (by linarith)]
  constructor <;> linarith

/-- C4 witness: the amended statement at the midpoint draw `r = 1/2` from
the initial metrics (accuracy `94.2`). -/
theorem C4_tick_update_witness :
    (0:ℚ) ≤ 1/2 ∧ (1/2:ℚ) < 1 ∧ initMetrics.ai_accuracy = 471/5 ∧
    466/5 ≤ (tickMetrics (1/2) (1/2) (1/2) (1/2) (1/2) initMetrics).ai_accuracy ∧
    (tickMetrics (1/2) (1/2) (1/2) (1/2) (1/2) initMetrics).ai_accuracy < 476/5 :=
  ⟨by norm_num, by norm_num, by norm_num [initMetrics],
   ((C4_tick_update (1/2) (1/2) (1/2) (1/2) (1/2) (by norm_num) (by norm_num)
      initMetrics).2.2.2.2 (by norm_num [initMetrics])).1,
   ((C4_tick_update (1/2) (1/2) (1/2) (1/2) (1/2) (by norm_num) (by norm_num)
      initMetrics).2.2.2.2 (by norm_num [initMetrics])).2⟩

/-! ## C5 — dismiss is idempotent and total -/

/-- C5: dismissing the same id twice equals dismissing it once, and
dismissing an id not present in the queue leaves the queue unchanged
(no error): `prev.filter(alert => alert.id !== alertId)`. -/
theorem C5_dismiss_idempotent (i : ℚ) (q : List Alert) :
    dismissAlert i (dismissAlert i q) = dismissAlert i q ∧
    ((∀ a ∈ q, a.id ≠ i) → dismissAlert i q = q) := by
  constructor
  · rw [dismissAlert, dismissAlert, List.filter_filter]
    simp
  · intro h
    rw [dismissAlert, List.filter_eq_self]
    intro a ha
    simpa using h a ha

/-- C5 witness: a two-alert queue whose ids (`1000` and `4001/2`) differ
from the dismissed id `5`. -/
theorem C5_dismiss_idempotent_witness :
    (∀ a ∈ [alertA, alertB], a.id ≠ 5) ∧
    (dismissAlert 5 (dismissAlert 5 [alertA, alertB]) = dismissAlert 5 [alertA, alertB] ∧
     ((∀ a ∈ [alertA, alertB], a.id ≠ 5) → dismissAlert 5 [alertA, alertB] = [alertA, alertB])) :=
  ⟨by
      intro a ha
      simp only [List.mem_cons, List.not_mem_nil, or_false] at ha
      rcases ha with rfl | rfl <;> norm_num [alertA, alertB, generateAlert],
   C5_dismiss_idempotent 5 [alertA, alertB]⟩

/-! ## C6 — the acknowledged flag never reverts -/

/-- One queue operation never turns an acknowledged event back into an
unacknowledged one: any `read = false` element of the result was already
in the queue (unchanged, hence already unacknowledged) or is the alert
the operation itself pushed. -/
theorem applyOp_read_false {q : List Alert} {op : QueueOp} {e : Alert}
    (hmem : e ∈ applyOp q op) (hread : e.read = false) :
    e ∈ q ∨ op = QueueOp.push e := by
  cases op with
  | push a =>
      rcases List.mem_cons.mp hmem with rfl | h
      · exact Or.inr rfl
      · exact Or.inl (List.take_subset 9 q h)
  | dismiss i =>
      exact Or.inl (List.mem_of_mem_filter hmem)
  | ack i =>
      rcases List.mem_map.mp hmem with ⟨b, hb, heq⟩
      by_cases hid : b.id = i
      · rw [if_pos hid] at heq
        rw [← heq] at hread
        simp at hread
      · rw [if_neg hid] at heq
        exact Or.inl (heq ▸ hb)

/-- C6: over any sequence of queue operations, an event's `read` flag only
transitions `false → true`, never back: every unacknowledged event in the
resulting queue either was already in the starting queue (with the same,
unacknowledged flag) or was newly pushed by one of the operations — no
operation ever produces an unacknowledged copy of an acknowledged event. -/
theorem C6_ack_never_reverts (ops : List QueueOp) (q : List Alert) (e : Alert)
    (hmem : e ∈ applyOps q ops) (hread : e.read = false) :
    e ∈ q ∨ QueueOp.push e ∈ ops := by
  induction ops generalizing q with
  | nil => exact Or.inl hmem
  | cons op ops ih =>
      rcases ih (applyOp q op) hmem with h | h
      · rcases applyOp_read_false h hread with h' | h'
        · exact Or.inl h'
        · subst h'
          exact Or.inr (List.mem_cons_self _ _)
      · exact Or.inr (List.mem_cons_of_mem op h)

/-- C6 witness: dismissing an unrelated id keeps the unacknowledged alert
`alertA`, which is then accounted for as an original queue member. -/
theorem C6_ack_never_reverts_witness :
    alertA ∈ [alertA] ∨ QueueOp.push alertA ∈ [QueueOp.dismiss 5] :=
  C6_ack_never_reverts [QueueOp.dismiss 5] [alertA] alertA
    (by
      have hne : alertA.id ≠ (5:ℚ) := by norm_num [alertA, generateAlert]
      simp [applyOps, applyOp, dismissAlert, hne])
    rfl

/-! ## C7 — network-failure fallback -/

/-- C7: the claim states every failed network call of the presentation
layer is converted into the documented fixed fallback payload.  False for
`AdvancedAIPredictor.runPrediction`: its `catch` block only logs, so a
failed `/api/predict` fetch leaves the prediction state unchanged — here
`none` (nothing to show), not a fallback payload — while
`CrisisPredictor.handlePredict` does substitute its fixed fallback. -/
theorem C7_counterexample :
    runPrediction (none : Option Prediction) none = none ∧
    handlePredict none none = some fallbackPrediction :=
  ⟨rfl, rfl⟩

/-- C7 (amended): every network-call handler catches failure (the handlers
are total, so no rejection propagates); `CrisisPredictor.handlePredict`
converts failure into the documented fixed fallback payload, whereas
`AdvancedAIPredictor.runPrediction` leaves the previous prediction state
unchanged on failure; both store the response on success. -/
theorem C7_failure_handling {β : Type} (prev : Option Prediction) (prevAdv : Option β) :
    handlePredict none prev = some fallbackPrediction ∧
    runPrediction none prevAdv = prevAdv ∧
    (∀ r : Prediction, handlePredict (some r) prev = some r) ∧
    (∀ r : β, runPrediction (some r) prevAdv = some r) :=
  ⟨rfl, rfl, fun _ => rfl, fun _ => rfl⟩

/-- C7 witness: the amended statement at an empty prior prediction state. -/
theorem C7_failure_handling_witness :
    handlePredict none none = some fallbackPrediction ∧
    runPrediction (none : Option Prediction) none = none :=
  ⟨(C7_failure_handling (none : Option Prediction) (none : Option Prediction)).1,
   (C7_failure_handling (none : Option Prediction) (none : Option Prediction)).2.1⟩

/-! ## C8 — id uniqueness -/

/-- C8: the claim states timestamp-plus-random ids are unique across all
events ever inserted.  False: nothing prevents two generator invocations
from drawing the same `Date.now()` millisecond and the same
`Math.random()` value.  `alertC1` and `alertC2` are distinct events (their
messages differ) with the same id `1000 + 1/2`, and after pushing both the
queue holds two live events sharing that id. -/
theorem C8_counterexample :
    alertC1 ≠ alertC2 ∧
    alertC1.id = alertC2.id ∧
    alertC1 ∈ pushAlert alertC2 (pushAlert alertC1 []) ∧
    alertC2 ∈ pushAlert alertC2 (pushAlert alertC1 []) := by
  have h1 : alertC1.message = "Drought conditions worsening in Horn of Africa" := by
    norm_num [alertC1, generateAlert, floorIdx, alertTypes]
  have h2 : alertC2.message = "Flood risk elevated in Bangladesh Delta" := by
    norm_num [alertC2, generateAlert, floorIdx, alertTypes]
  refine ⟨fun h => ?_, rfl, ?_, ?_⟩
  · rw [h, h2] at h1
    exact absurd h1 (by decide)
  · simp [pushAlert]
  · simp [pushAlert]

/-- C8 (amended): an event's id is exactly `timestamp + random tie-break`,
so ids are unique only when no two generator invocations produce the same
sum; under that assumption (pairwise-distinct ids among the generated
events) no two live events of the resulting alerts queue ever share an
id. -/
theorem C8_id_uniqueness :
    (∀ now rType rMsg rId rSev1 rSev2 : ℚ,
      (generateAlert now rType rMsg rId rSev1 rSev2).id = now + rId) ∧
    (∀ alerts : List Alert,
      alerts.Pairwise (fun a b => a.id ≠ b.id) →
      (runAlerts alerts).Pairwise (fun a b => a.id ≠ b.id)) := by
  constructor
  · intro now rT rM rI s1 s2
    rfl
  · intro alerts h
    rw [runAlerts_eq]
    refine List.Pairwise.sublist (List.take_sublist 10 _) ?_
    exact List.pairwise_reverse.mpr (h.imp fun hab => Ne.symm hab)

/-- C8 witness: two generated alerts with distinct timestamp-plus-random
sums (`1000` and `4001/2`) yield a queue with pairwise-distinct ids. -/
theorem C8_id_uniqueness_witness :
    (runAlerts [alertA, alertB]).Pairwise (fun a b => a.id ≠ b.id) :=
  C8_id_uniqueness.2 [alertA, alertB]
    (by
      refine List.Pairwise.cons ?_ (List.pairwise_singleton _ _)
      intro b hb
      simp only [List.mem_cons, List.not_mem_nil, or_false] at hb
      subst hb
      norm_num [alertA, alertB, generateAlert])

/-! ## C9 — stopping the scheduler -/

/-- A timer callback fires only while the intervals are installed. -/
theorem fireEvent_stopped (s : DashState) (hs : s.running = false)
    (ev : TimerEvent) : fireEvent s ev = s := by
  cases ev <;> simp [fireEvent, hs]

/-- C9: once the `useEffect` cleanup has run `clearInterval`, any number of
elapsed tick-periods fires no callback: the alerts queue, the live-data
queue and the system metrics all stay exactly as they were at stop time;
and stopping again is a no-op. -/
theorem C9_stop_halts (s : DashState) (evs : List TimerEvent) :
    elapse (stopSched s) evs = stopSched s ∧
    stopSched (stopSched s) = stopSched s := by
  refine ⟨?_, rfl⟩
  induction evs with
  | nil => rfl
  | cons ev evs ih =>
      show elapse (fireEvent (stopSched s) ev) evs = stopSched s
      rw [fireEvent_stopped _ rfl ev]
      exact ih

/-! ## C10 — constant hotspot catalog -/

/-- C10: `generateCrisisHotspots` is a constant: any two invocations —
in particular any `refreshData`, from any prior hotspot states — produce
the identical list of five hotspots with ids `1…5` and the fixed
severities; a refresh never changes the displayed hotspot data. -/
theorem C10_hotspots_constant (prev1 prev2 : List Hotspot) :
    refreshData prev1 = refreshData prev2 ∧
    refreshData prev1 = generateCrisisHotspots ∧
    generateCrisisHotspots.length = 5 ∧
    generateCrisisHotspots.map Hotspot.id = [1, 2, 3, 4, 5] ∧
    generateCrisisHotspots.map Hotspot.severity =
      ["critical", "high", "high", "medium", "medium"] :=
  ⟨rfl, rfl, rfl, rfl, rfl⟩

end QuantAid
